import Mathlib

/-!
Verification development for the Paddock Pal repository
(`src/Streamlit/paddockpal1.py`, `src/Streamlit/informationpage.py`,
`src/Streamlit/landing.py`).

The Python program is a thin orchestration layer over external services
(OpenAI embeddings and chat completions, Pinecone vector indexes, S3).
We shallowly embed its pure logic: every external call is modelled as a
parameter (an oracle function or an `Except` value, where `Except.error`
models a raised exception caught by the surrounding `try`/`except`), and
the Python functions become total Lean functions over those parameters.
Python floats only ever flow through comparisons here, so scores are
modelled as rationals; Python dictionary `.get(key, default)` accesses
are modelled with `Option` fields plus a defaulting getter.
-/

namespace PaddockPal

/-- A Pinecone match as used by `paddockpal1.py`: the code reads
`match["metadata"].get("text", "")` and `match.get("score", 0)`, and
compares whole matches with `in` / `not in` (structural equality).
`id` stands for the remaining identifying payload of the match dict,
`metadata_text` for the optional `"text"` entry of its metadata dict,
`score` for the optional `"score"` entry. -/
structure Match where
  id : String
  metadata_text : Option String
  score : Option ℚ
deriving DecidableEq

/-- `match["metadata"].get("text", "")` (paddockpal1.py lines 104 and 135). -/
def metaText (m : Match) : String :=
  m.metadata_text.getD ""

/-- `x.get("score", 0)` (paddockpal1.py line 128). -/
def getScore (m : Match) : ℚ :=
  m.score.getD 0

/-- The three fixed index names (paddockpal1.py lines 23-27). -/
def INDEX_NAMES : List String :=
  ["sporting-regulations-embeddings",
   "technical-regulations-embeddings",
   "financial-regulations-embeddings"]

/-- Python list/char-level helper: whether `needle` occurs as a contiguous
initial segment of `hay`. -/
def listLeads : List Char → List Char → Bool
  | [], _ => true
  | _ :: _, [] => false
  | a :: as, b :: bs => a == b && listLeads as bs

/-- Python `needle in hay` on strings: contiguous substring occurrence. -/
def listInside (needle : List Char) : List Char → Bool
  | [] => listLeads needle []
  | b :: bs => listLeads needle (b :: bs) || listInside needle bs

/-- Python `needle in hay` for strings. -/
def strInside (needle hay : String) : Bool :=
  listInside needle.data hay.data

/-- The keyword predicate of paddockpal1.py lines 102-105:
`any(keyword.lower() in match["metadata"].get("text", "").lower() for keyword in keywords)`. -/
def isKeywordMatch (keywords : List String) (m : Match) : Bool :=
  keywords.any (fun keyword => strInside keyword.toLower (metaText m).toLower)

/-- Lines 101-108 of paddockpal1.py: partition the matches into keyword
matches and the rest, then concatenate with priority for keyword matches:
`combined_results = keyword_matches + [m for m in matches if m not in keyword_matches]`. -/
def combineWithKeywordPriority (keywords : List String) (matchList : List Match) : List Match :=
  let keyword_matches := matchList.filter (fun m => isKeywordMatch keywords m)
  keyword_matches ++ matchList.filter (fun m => !(decide (m ∈ keyword_matches)))

/-- The external Pinecone service, as observed through
`index.query(vector=..., top_k=..., include_metadata=True)` inside the
`try` block of `query_pinecone`: given the index name, the query vector
and `top_k`, it either raises (`Except.error`) or returns the match list
`response.get("matches", [])`. -/
structure PineconeEnv where
  indexQuery : String → List ℚ → Nat → Except Unit (List Match)

/-- `query_pinecone` (paddockpal1.py lines 85-112): query one index for the
`top_k` nearest neighbours, put keyword matches first, truncate the merged
list to `top_k`; any exception in the `try` block yields `[]`. -/
def query_pinecone (env : PineconeEnv) (index_name : String) (query_embedding : List ℚ)
    (keywords : List String) (top_k : Nat) : List Match :=
  match env.indexQuery index_name query_embedding top_k with
  | Except.error _ => []
  | Except.ok matchList => (combineWithKeywordPriority keywords matchList).take top_k

/-- `generate_embeddings_openai` (paddockpal1.py lines 71-83): the external
embedding call either raises (`Except.error`, caught: the function returns
`None`, i.e. `none`) or yields an embedding vector. -/
def generate_embeddings_openai (apiResult : Except Unit (List ℚ)) : Option (List ℚ) :=
  match apiResult with
  | Except.error _ => none
  | Except.ok embedding => some embedding

/-- The per-index accumulation loop of `fetch_relevant_documents`
(paddockpal1.py lines 121-126): `all_results.extend(query_pinecone(index_name,
query_embedding, keywords=[], top_k=10))` over the three index names. -/
def all_results (env : PineconeEnv) (query_embedding : List ℚ) : List Match :=
  (INDEX_NAMES.map (fun index_name => query_pinecone env index_name query_embedding [] 10)).flatten

/-- The comparison used by
`sorted(all_results, key=lambda x: x.get("score", 0), reverse=True)`:
`a` may come before `b` iff `a`'s score is at least `b`'s. Python's
`sorted` is a stable merge sort, so the whole call is modelled as
`List.mergeSort` with this comparison. -/
def scoreDescLe (a b : Match) : Bool :=
  decide (getScore b ≤ getScore a)

/-- `fetch_relevant_documents` (paddockpal1.py lines 114-129), instrumented:
the first component is the returned match list, the second records which
indexes were queried by the loop. A falsy embedding (`None` from a failed
embedding call, or an empty vector) short-circuits to `([], [])` because of
`if not query_embedding: return []`. -/
def fetch_relevant_documents_run (env : PineconeEnv) (embApi : Except Unit (List ℚ)) :
    List Match × List String :=
  match generate_embeddings_openai embApi with
  | none => ([], [])
  | some query_embedding =>
    if query_embedding.isEmpty then ([], [])
    else (((all_results env query_embedding).mergeSort scoreDescLe).take 5, INDEX_NAMES)

/-- The value returned by `fetch_relevant_documents`. -/
def fetch_relevant_documents (env : PineconeEnv) (embApi : Except Unit (List ℚ)) : List Match :=
  (fetch_relevant_documents_run env embApi).1

/-- The accumulation loop of `get_combined_context` (paddockpal1.py lines
132-138): walk the matches, keep each non-empty text not seen before.
`seen` carries the contents of the `seen_texts` set. -/
def collect_contexts : List Match → List String → List String
  | [], _ => []
  | m :: rest, seen =>
    if metaText m ≠ "" ∧ metaText m ∉ seen then
      metaText m :: collect_contexts rest (metaText m :: seen)
    else collect_contexts rest seen

/-- `get_combined_context` (paddockpal1.py lines 131-139):
`"\n\n".join(contexts[:3])` over the deduplicated non-empty texts. -/
def get_combined_context (matchList : List Match) : String :=
  String.intercalate "\n\n" ((collect_contexts matchList []).take 3)

/-- A message of the fixed two-message chat prompt. -/
structure ChatMessage where
  role : String
  content : String
deriving DecidableEq

/-- The user message body of paddockpal1.py lines 147-153 (an f-string over
`context` and `query`). -/
def userPrompt (context query : String) : String :=
  "Based on the following context, answer the question in detail. Provide a comprehensive response, include all relevant points, and elaborate wherever possible.\n\nContext:\n"
    ++ context ++ "\n\nQuestion:\n" ++ query

/-- `generate_answer_with_openai` (paddockpal1.py lines 141-166). The
external chat-completion call is the oracle `chatApi` from the prompt
messages to either the completion content or a raised exception. The
second component of the result records whether the completion API was
invoked at all. An empty (falsy) context short-circuits to the fixed
string without any API call. -/
def generate_answer_with_openai (chatApi : List ChatMessage → Except Unit String)
    (context query : String) : String × Bool :=
  if context.isEmpty then ("No relevant information found in the database.", false)
  else
    let messages : List ChatMessage :=
      [⟨"system", "You are a knowledgeable assistant with expertise in Formula 1 regulations."⟩,
       ⟨"user", userPrompt context query⟩]
    match chatApi messages with
    | Except.ok content => (content.trim, true)
    | Except.error _ => ("An error occurred while generating the answer.", true)

/-- The observable state of the Pinecone control plane: the set of existing
index names, as reported by `pinecone_client.list_indexes().names()`. -/
structure PineconeControlState where
  indexes : List String
deriving DecidableEq

/-- What one run of `ensure_index_exists` does and reports: either a
`create_index` call (with its dimension and metric), or the
"already exists" observation. -/
inductive ProvisionEvent where
  | created (name : String) (dimension : Nat) (metric : String)
  | alreadyExists (name : String)
deriving DecidableEq

/-- `ensure_index_exists` (paddockpal1.py lines 35-48): create the index
exactly when its name is not in `list_indexes().names()`. Call sites
(line 52) use the default arguments `dimension=1536`, `metric="cosine"`. -/
def ensure_index_exists (st : PineconeControlState) (index_name : String)
    (dimension : Nat) (metric : String) : PineconeControlState × ProvisionEvent :=
  if index_name ∉ st.indexes then
    (⟨st.indexes ++ [index_name]⟩, ProvisionEvent.created index_name dimension metric)
  else
    (st, ProvisionEvent.alreadyExists index_name)

/-- The process environment variables read at startup: `os.getenv` yields
`none` when the variable is absent. -/
structure EnvVars where
  aws_access_key_id : Option String
  aws_secret_access_key : Option String
  aws_region : Option String
  openai_api_key : Option String
  pinecone_api_key : Option String
  pinecone_env : Option String
deriving DecidableEq

/-- Python truthiness test `not x` for an optional string: `None` and the
empty string are falsy. -/
def pyFalsyOptStr : Option String → Bool
  | none => true
  | some s => s.isEmpty

/-- The module-initialization credential check of paddockpal1.py lines
11-17: `raise ValueError(...)` (modelled as `Except.error`) iff any of
`OPENAI_API_KEY`, `PINECONE_API_KEY`, `PINECONE_ENV` is falsy. This runs
at import time, before any UI renders. No other startup validation exists
in the repository. -/
def paddockpal_module_init (env : EnvVars) : Except String Unit :=
  if pyFalsyOptStr env.openai_api_key || pyFalsyOptStr env.pinecone_api_key
      || pyFalsyOptStr env.pinecone_env then
    Except.error "API keys or environment variables for OpenAI and Pinecone are missing."
  else
    Except.ok ()

/-- The S3 client value built by `init_s3_client` (informationpage.py lines
11-19): the three AWS environment variables are passed through unchecked;
the constructor never raises on absent values. -/
structure S3Client where
  aws_access_key_id : Option String
  aws_secret_access_key : Option String
  region_name : Option String
deriving DecidableEq

/-- `init_s3_client` (informationpage.py lines 11-19). -/
def init_s3_client (env : EnvVars) : S3Client :=
  ⟨env.aws_access_key_id, env.aws_secret_access_key, env.aws_region⟩

/-! ## Concrete sample data used by counterexamples and witnesses -/

/-- Six distinct matches with distinct scores, as one index's response. -/
def cexMatches : List Match :=
  [⟨"m1", some "t1", some 6⟩, ⟨"m2", some "t2", some 5⟩, ⟨"m3", some "t3", some 4⟩,
   ⟨"m4", some "t4", some 3⟩, ⟨"m5", some "t5", some 2⟩, ⟨"m6", some "t6", some 1⟩]

/-- An environment in which every index query succeeds with `cexMatches`. -/
def cexEnv : PineconeEnv :=
  ⟨fun _ _ _ => Except.ok cexMatches⟩

/-- One sample match. -/
def sampleMatchA : Match := ⟨"a", some "alpha text", some 1⟩

/-- A match whose text contains the keyword "weight". -/
def sampleMatchKw : Match := ⟨"k", some "minimum weight rules", some 2⟩

/-- A match whose text does not contain the keyword "weight". -/
def sampleMatchNoKw : Match := ⟨"n", some "engine power", some 3⟩

/-- An environment in which every index query succeeds with `[sampleMatchA]`. -/
def sampleEnvA : PineconeEnv :=
  ⟨fun _ _ _ => Except.ok [sampleMatchA]⟩

/-- An environment in which every index query succeeds with the
no-keyword match followed by the keyword match. -/
def sampleEnvKw : PineconeEnv :=
  ⟨fun _ _ _ => Except.ok [sampleMatchNoKw, sampleMatchKw]⟩

/-- Process environment with all AWS variables absent but the three
OpenAI/Pinecone variables present. -/
def envMissingAws : EnvVars :=
  ⟨none, none, none, some "sk-openai", some "pc-key", some "us-east-1"⟩

/-- Process environment with `OPENAI_API_KEY` absent. -/
def envNoOpenAI : EnvVars :=
  ⟨some "ak", some "sk", some "us-east-1", none, some "pc-key", some "us-east-1"⟩

/-! ## Helper lemmas -/

/-- The descending-score comparison is transitive. -/
theorem scoreDescLe_trans : ∀ a b c : Match, scoreDescLe a b → scoreDescLe b c → scoreDescLe a c := by
  intro a b c hab hbc
  simp only [scoreDescLe, decide_eq_true_eq] at hab hbc ⊢
  exact le_trans hbc hab

/-- The descending-score comparison is total. -/
theorem scoreDescLe_total : ∀ a b : Match, scoreDescLe a b || scoreDescLe b a := by
  intro a b
  simp only [scoreDescLe, Bool.or_eq_true, decide_eq_true_eq]
  exact le_total (getScore b) (getScore a)

/-- The context-collection loop yields pairwise-distinct texts, none of
which was already seen. -/
theorem collect_contexts_spec : ∀ (ms : List Match) (seen : List String),
    (collect_contexts ms seen).Nodup ∧ ∀ t ∈ collect_contexts ms seen, t ∉ seen
  | [], seen => by simp [collect_contexts]
  | m :: rest, seen => by
    rw [collect_contexts]
    by_cases h : metaText m ≠ "" ∧ metaText m ∉ seen
    · rw [if_pos h]
      obtain ⟨ih1, ih2⟩ := collect_contexts_spec rest (metaText m :: seen)
      refine ⟨List.nodup_cons.mpr ⟨fun hmem => (ih2 _ hmem) (List.mem_cons_self _ _), ih1⟩, ?_⟩
      intro t ht
      rcases List.mem_cons.mp ht with rfl | ht'
      · exact h.2
      · exact fun hseen => (ih2 _ ht') (List.mem_cons_of_mem _ hseen)
    · rw [if_neg h]
      exact collect_contexts_spec rest seen

/-- With an empty keyword list, the keyword-priority merge is the identity. -/
theorem combine_nil_keywords (ms : List Match) : combineWithKeywordPriority [] ms = ms := by
  unfold combineWithKeywordPriority
  simp [isKeywordMatch]

/-! ## Claim theorems -/

/-- Claim C3: for every query, if the embedding call fails (the embedding client
reports failure, i.e. `generate_embeddings_openai` yields `none`),
`fetch_relevant_documents` returns the empty result set, queries no index,
and — being a total function — never raises. -/
theorem C3_embedding_failure_yields_empty (env : PineconeEnv) :
    generate_embeddings_openai (Except.error ()) = none ∧
    fetch_relevant_documents env (Except.error ()) = [] ∧
    (fetch_relevant_documents_run env (Except.error ())).2 = [] :=
  ⟨rfl, rfl, rfl⟩

/-- Claim C10: `fetch_relevant_documents` treats any falsy embedding as failure:
both a `None` embedding (failed call) and an empty embedding vector make it
return the empty result set without querying any index (the query log, the
second component of `fetch_relevant_documents_run`, stays empty). -/
theorem C10_falsy_embedding_short_circuits (env : PineconeEnv) :
    fetch_relevant_documents_run env (Except.ok []) = ([], []) ∧
    fetch_relevant_documents_run env (Except.error ()) = ([], []) :=
  ⟨rfl, rfl⟩

/-- Claim C6: for every query and every behaviour of the chat-completion API,
`generate_answer_with_openai` on an empty context returns the fixed string
"No relevant information found in the database." and does not invoke the
completion API (the invocation flag is `false`). -/
theorem C6_empty_context_fixed_answer (chatApi : List ChatMessage → Except Unit String)
    (query : String) :
    generate_answer_with_openai chatApi "" query
      = ("No relevant information found in the database.", false) :=
  rfl

/-- Claim C5: for every list of matches, the block list that
`get_combined_context` assembles and joins — `(collect_contexts ms []).take 3`,
per its definition — has no duplicate text block and at most 3 entries. -/
theorem C5_context_nodup_atmost3 (ms : List Match) :
    get_combined_context ms
      = String.intercalate "\n\n" ((collect_contexts ms []).take 3) ∧
    ((collect_contexts ms []).take 3).Nodup ∧
    ((collect_contexts ms []).take 3).length ≤ 3 := by
  refine ⟨rfl, ?_, ?_⟩
  · exact List.Nodup.sublist (List.take_sublist 3 _) (collect_contexts_spec ms []).1
  · exact List.length_take_le 3 _

/-- Claim C9: with an empty keyword list (the only usage in the current code),
the keyword group is empty and the keyword-priority merge is the identity,
so `query_pinecone` returns the index's match list in original order
truncated to `top_k`. -/
theorem C9_empty_keywords_merge_identity (env : PineconeEnv) (index_name : String)
    (e : List ℚ) (top_k : Nat) (ms : List Match)
    (h : env.indexQuery index_name e top_k = Except.ok ms) :
    combineWithKeywordPriority [] ms = ms ∧
    query_pinecone env index_name e [] top_k = ms.take top_k := by
  refine ⟨combine_nil_keywords ms, ?_⟩
  simp [query_pinecone, h, combine_nil_keywords]

/-- Witness for C9 at a concrete environment and match list. -/
theorem C9_empty_keywords_merge_identity_witness :
    sampleEnvA.indexQuery "sporting-regulations-embeddings" [1] 3
        = Except.ok [sampleMatchA] ∧
    (combineWithKeywordPriority [] [sampleMatchA] = [sampleMatchA] ∧
      query_pinecone sampleEnvA "sporting-regulations-embeddings" [1] [] 3
        = [sampleMatchA].take 3) :=
  ⟨rfl, C9_empty_keywords_merge_identity sampleEnvA "sporting-regulations-embeddings" [1] 3
    [sampleMatchA] rfl⟩

/-- Claim C4: for every non-empty keyword list, the merged list built by
`query_pinecone` is exactly the keyword matches (in original order)
followed by the matches containing no keyword (in original order); the
returned value is that list truncated to `top_k`. -/
theorem C4_keyword_matches_first (k : String) (kws : List String) (ms : List Match)
    (env : PineconeEnv) (index_name : String) (e : List ℚ) (top_k : Nat)
    (h : env.indexQuery index_name e top_k = Except.ok ms) :
    combineWithKeywordPriority (k :: kws) ms
      = ms.filter (fun m => isKeywordMatch (k :: kws) m)
        ++ ms.filter (fun m => !(isKeywordMatch (k :: kws) m)) ∧
    query_pinecone env index_name e (k :: kws) top_k
      = (ms.filter (fun m => isKeywordMatch (k :: kws) m)
          ++ ms.filter (fun m => !(isKeywordMatch (k :: kws) m))).take top_k := by
  have hc : combineWithKeywordPriority (k :: kws) ms
      = ms.filter (fun m => isKeywordMatch (k :: kws) m)
        ++ ms.filter (fun m => !(isKeywordMatch (k :: kws) m)) := by
    unfold combineWithKeywordPriority
    dsimp only
    congr 1
    apply List.filter_congr
    intro m hm
    by_cases hP : isKeywordMatch (k :: kws) m
    · simp [List.mem_filter, hm, hP]
    · simp [List.mem_filter, hm, hP]
  exact ⟨hc, by simp [query_pinecone, h, hc]⟩

/-- Witness for C4 at a concrete keyword list and match list. -/
theorem C4_keyword_matches_first_witness :
    sampleEnvKw.indexQuery "sporting-regulations-embeddings" [1] 10
        = Except.ok [sampleMatchNoKw, sampleMatchKw] ∧
    (combineWithKeywordPriority ["weight"] [sampleMatchNoKw, sampleMatchKw]
      = [sampleMatchNoKw, sampleMatchKw].filter (fun m => isKeywordMatch ["weight"] m)
        ++ [sampleMatchNoKw, sampleMatchKw].filter (fun m => !(isKeywordMatch ["weight"] m)) ∧
    query_pinecone sampleEnvKw "sporting-regulations-embeddings" [1] ["weight"] 10
      = ([sampleMatchNoKw, sampleMatchKw].filter (fun m => isKeywordMatch ["weight"] m)
          ++ [sampleMatchNoKw, sampleMatchKw].filter
              (fun m => !(isKeywordMatch ["weight"] m))).take 10) :=
  ⟨rfl, C4_keyword_matches_first "weight" [] [sampleMatchNoKw, sampleMatchKw]
    sampleEnvKw "sporting-regulations-embeddings" [1] 10 rfl⟩

/-- Claim C7: index provisioning is idempotent. From a state where one of the
three fixed index names is absent, the first `ensure_index_exists` run
performs the create call (dimension 1536, cosine metric, the call-site
defaults) and the second run reports "already exists" and leaves the state
unchanged. -/
theorem C7_provisioning_idempotent (st : PineconeControlState) (name : String)
    (_hname : name ∈ INDEX_NAMES) (habs : name ∉ st.indexes) :
    (ensure_index_exists st name 1536 "cosine").2
        = ProvisionEvent.created name 1536 "cosine" ∧
    (ensure_index_exists (ensure_index_exists st name 1536 "cosine").1 name 1536 "cosine").2
        = ProvisionEvent.alreadyExists name ∧
    (ensure_index_exists (ensure_index_exists st name 1536 "cosine").1 name 1536 "cosine").1
        = (ensure_index_exists st name 1536 "cosine").1 ∧
    (ensure_index_exists st name 1536 "cosine").1.indexes = st.indexes ++ [name] := by
  simp [ensure_index_exists, habs]

/-- Witness for C7 from the empty control state. -/
theorem C7_provisioning_idempotent_witness :
    ("sporting-regulations-embeddings" ∈ INDEX_NAMES
      ∧ "sporting-regulations-embeddings"
          ∉ (PineconeControlState.mk []).indexes) ∧
    ((ensure_index_exists ⟨[]⟩ "sporting-regulations-embeddings" 1536 "cosine").2
        = ProvisionEvent.created "sporting-regulations-embeddings" 1536 "cosine" ∧
    (ensure_index_exists
        (ensure_index_exists ⟨[]⟩ "sporting-regulations-embeddings" 1536 "cosine").1
        "sporting-regulations-embeddings" 1536 "cosine").2
        = ProvisionEvent.alreadyExists "sporting-regulations-embeddings" ∧
    (ensure_index_exists
        (ensure_index_exists ⟨[]⟩ "sporting-regulations-embeddings" 1536 "cosine").1
        "sporting-regulations-embeddings" 1536 "cosine").1
        = (ensure_index_exists ⟨[]⟩ "sporting-regulations-embeddings" 1536 "cosine").1 ∧
    (ensure_index_exists ⟨[]⟩ "sporting-regulations-embeddings" 1536 "cosine").1.indexes
        = ([] : List String) ++ ["sporting-regulations-embeddings"]) :=
  ⟨⟨by simp [INDEX_NAMES], by simp⟩,
    C7_provisioning_idempotent ⟨[]⟩ "sporting-regulations-embeddings"
      (by simp [INDEX_NAMES]) (by simp)⟩

/-- Claim C8 counterexample: all three AWS variables are absent, yet module
initialization succeeds (no raise) and the S3 client is built anyway —
absence of the AWS credentials does not make the process raise. -/
theorem C8_counterexample_aws_not_checked :
    envMissingAws.aws_access_key_id = none ∧
    envMissingAws.aws_secret_access_key = none ∧
    envMissingAws.aws_region = none ∧
    paddockpal_module_init envMissingAws = Except.ok () ∧
    init_s3_client envMissingAws = ⟨none, none, none⟩ :=
  ⟨rfl, rfl, rfl, rfl, rfl⟩

/-- Claim C8 (amended): at process startup, if any of `OPENAI_API_KEY`,
`PINECONE_API_KEY`, `PINECONE_ENV` is absent (or empty), module
initialization raises immediately, before any UI renders; the AWS
credentials are read without validation, so their absence does not raise. -/
theorem C8_missing_key_raises (env : EnvVars)
    (h : pyFalsyOptStr env.openai_api_key = true
      ∨ pyFalsyOptStr env.pinecone_api_key = true
      ∨ pyFalsyOptStr env.pinecone_env = true) :
    paddockpal_module_init env
      = Except.error "API keys or environment variables for OpenAI and Pinecone are missing." := by
  unfold paddockpal_module_init
  rcases h with h | h | h <;> simp [h]

/-- Witness for C8 (amended) with a missing OpenAI key. -/
theorem C8_missing_key_raises_witness :
    (pyFalsyOptStr envNoOpenAI.openai_api_key = true
      ∨ pyFalsyOptStr envNoOpenAI.pinecone_api_key = true
      ∨ pyFalsyOptStr envNoOpenAI.pinecone_env = true) ∧
    paddockpal_module_init envNoOpenAI
      = Except.error "API keys or environment variables for OpenAI and Pinecone are missing." :=
  ⟨Or.inl rfl, C8_missing_key_raises envNoOpenAI (Or.inl rfl)⟩

/-- Claim C1 counterexample: with the keyword list `[]` and `top_k = 10` that
`fetch_relevant_documents` actually passes, one index's merged result list
keeps all 6 returned entries: `query_pinecone` truncates per index to
`top_k = 10`, not to 5 as the claim states. -/
theorem C1_counterexample_no_per_index_5 :
    (query_pinecone cexEnv "sporting-regulations-embeddings" [1] [] 10).length = 6 := by
  rfl

/-- Claim C1 (amended): for every query, the orchestrator requests the top 10
neighbours from each of the three fixed indexes (the query log lists
exactly the three index names), each index's merged result list is
truncated to `top_k = 10` entries (not 5), and only the combined
cross-index re-sort is truncated to 5. -/
theorem C1_per_index_truncation_is_topk (env : PineconeEnv) (x : ℚ) (xs : List ℚ) :
    (∀ index_name : String, (query_pinecone env index_name (x :: xs) [] 10).length ≤ 10) ∧
    (fetch_relevant_documents_run env (Except.ok (x :: xs))).2 = INDEX_NAMES ∧
    fetch_relevant_documents env (Except.ok (x :: xs))
      = ((all_results env (x :: xs)).mergeSort scoreDescLe).take 5 ∧
    (fetch_relevant_documents env (Except.ok (x :: xs))).length ≤ 5 := by
  have hfetch : fetch_relevant_documents env (Except.ok (x :: xs))
      = ((all_results env (x :: xs)).mergeSort scoreDescLe).take 5 := rfl
  refine ⟨?_, rfl, hfetch, ?_⟩
  · intro index_name
    have hq : query_pinecone env index_name (x :: xs) [] 10
        = match env.indexQuery index_name (x :: xs) 10 with
          | Except.error _ => []
          | Except.ok matchList => (combineWithKeywordPriority [] matchList).take 10 := rfl
    rw [hq]
    cases env.indexQuery index_name (x :: xs) 10 with
    | error e => simp
    | ok matchList => exact List.length_take_le 10 _
  · rw [hfetch]
    exact List.length_take_le 5 _

/-- Claim C2: the documents returned by `fetch_relevant_documents` are at most 5,
sorted by descending score; together with some `rest` they are a
permutation of everything the indexes contributed, every match left out
scores no higher than every match returned, and the stable sort keeps
equal-score matches in their insertion order (any equal-score pair that
occurs in order in the concatenated per-index results still occurs in that
order after the sort). -/
theorem C2_top5_sorted_stable (env : PineconeEnv) (x : ℚ) (xs : List ℚ) :
    (fetch_relevant_documents env (Except.ok (x :: xs))).length ≤ 5 ∧
    (fetch_relevant_documents env (Except.ok (x :: xs))).Pairwise
      (fun a b => getScore b ≤ getScore a) ∧
    (∃ rest : List Match,
      (fetch_relevant_documents env (Except.ok (x :: xs)) ++ rest).Perm
        (all_results env (x :: xs)) ∧
      ∀ b ∈ rest, ∀ a ∈ fetch_relevant_documents env (Except.ok (x :: xs)),
        getScore b ≤ getScore a) ∧
    (∀ a b : Match, getScore a = getScore b →
      [a, b].Sublist (all_results env (x :: xs)) →
      [a, b].Sublist ((all_results env (x :: xs)).mergeSort scoreDescLe)) := by
  have hfetch : fetch_relevant_documents env (Except.ok (x :: xs))
      = ((all_results env (x :: xs)).mergeSort scoreDescLe).take 5 := rfl
  set all := all_results env (x :: xs) with hall
  set sortedAll := all.mergeSort scoreDescLe with hsortedAll
  have hsortPairwise : sortedAll.Pairwise (fun a b => scoreDescLe a b) :=
    List.sorted_mergeSort scoreDescLe_trans scoreDescLe_total all
  refine ⟨?_, ?_, ?_, ?_⟩
  · rw [hfetch]
    exact List.length_take_le 5 _
  · rw [hfetch]
    have htake : (sortedAll.take 5).Pairwise (fun a b => scoreDescLe a b) :=
      List.Pairwise.sublist (List.take_sublist 5 sortedAll) hsortPairwise
    exact htake.imp (fun h => by simpa [scoreDescLe] using h)
  · refine ⟨sortedAll.drop 5, ?_, ?_⟩
    · rw [hfetch, List.take_append_drop]
      exact List.mergeSort_perm all scoreDescLe
    · intro b hb a ha
      rw [hfetch] at ha
      have hpw : (sortedAll.take 5 ++ sortedAll.drop 5).Pairwise
          (fun a b => scoreDescLe a b) := by
        rw [List.take_append_drop]
        exact hsortPairwise
      have := (List.pairwise_append.mp hpw).2.2 a ha b hb
      simpa [scoreDescLe] using this
  · intro a b hscore hsub
    apply List.pair_sublist_mergeSort scoreDescLe_trans scoreDescLe_total _ hsub
    simp [scoreDescLe, hscore]

end PaddockPal
